import Mathlib

/-!
Verification of the portfolio processor (`portfolio_tool.py`).

The scoring engine operates on pandas rows whose numeric cells are Python
floats.  We embed a numeric cell as `Option ℚ`: `none` stands for an absent
value (Python `None` or float `NaN`), `some v` for an ordinary finite value.
Python comparison with `NaN` is `False` and `row.get` on a missing/`None`
field is falsy, so for both comparison-only guards and truthiness guards the
`none` case yields `false`; a present `0.0` is falsy in Python, which the
truthiness guards (`row.get("pe") and ...`) reflect.
-/

/-- Python comparison `x > c` on an optional cell: `NaN`/absent compares false. -/
def pyGT : Option ℚ → ℚ → Bool
  | none, _ => false
  | some v, c => decide (c < v)

/-- Python comparison `x < c` on an optional cell: `NaN`/absent compares false. -/
def pyLT : Option ℚ → ℚ → Bool
  | none, _ => false
  | some v, c => decide (v < c)

/-- Guard `row.get(f) and row[f] > c`: absent is falsy, a present `0` is
falsy, `NaN` is truthy but compares false; only a present nonzero value
reaches the comparison. -/
def fGT : Option ℚ → ℚ → Bool
  | none, _ => false
  | some v, c => decide (v ≠ 0) && decide (c < v)

/-- Guard `row.get(f) and row[f] < c` (see `fGT`). -/
def fLT : Option ℚ → ℚ → Bool
  | none, _ => false
  | some v, c => decide (v ≠ 0) && decide (v < c)

/-- The fields of a processed row that the scoring engine and the insight
builder read (`pl_pct`, `weight_pct` and the three fundamentals used). -/
structure Row where
  pl_pct : Option ℚ
  weight_pct : Option ℚ
  pe : Option ℚ
  forward_pe : Option ℚ
  analyst_score : Option ℚ
deriving DecidableEq, Repr

/-- `score_position` from `portfolio_tool.py` (lines 132-151), translated
condition by condition in source order. -/
def score_position (row : Row) : Int :=
  let score : Int := 0
  let score := if pyGT row.pl_pct 80 then score - 1 else score
  let score := if pyGT row.weight_pct 7 then score - 1 else score
  let score := if pyLT row.pl_pct (-20) then score - 1 else score
  let score := if fGT row.pe 40 then score - 1 else score
  let score := if fLT row.forward_pe 20 then score + 1 else score
  let score := if fLT row.analyst_score (5/2) then score + 1 else score
  score

/-- `decision_label` from `portfolio_tool.py` (lines 154-163). -/
def decision_label (score : Int) : String :=
  if score ≥ 2 then "Strong Buy"
  else if score = 1 then "Buy / Hold"
  else if score = 0 then "Review"
  else if score = -1 then "Trim"
  else "Sell"

/-- `build_insight` from `portfolio_tool.py` (lines 170-188): phrases are
appended in source order and joined with "; ", with "Stable" when the list
stays empty. -/
def build_insight (row : Row) : String :=
  let insights : List String := []
  let insights := if pyGT row.pl_pct 80 then insights ++ ["Large unrealized gain"] else insights
  let insights := if pyLT row.pl_pct (-20) then insights ++ ["Large loss"] else insights
  let insights := if pyGT row.weight_pct 7 then insights ++ ["High concentration"] else insights
  let insights := if fGT row.pe 40 then insights ++ ["High valuation"] else insights
  let insights := if fLT row.analyst_score 2 then insights ++ ["Analysts bullish"] else insights
  if insights.isEmpty then "Stable" else String.intercalate "; " insights

/-- The six score contributions exactly as claim C1 words them: each
fundamentals condition fires whenever the field is present and the
comparison holds, a present `0` included. -/
def score_claim_sum (row : Row) : Int :=
  (if pyGT row.pl_pct 80 then -1 else 0)
  + (if pyGT row.weight_pct 7 then -1 else 0)
  + (if pyLT row.pl_pct (-20) then -1 else 0)
  + (if pyGT row.pe 40 then -1 else 0)
  + (if pyLT row.forward_pe 20 then 1 else 0)
  + (if pyLT row.analyst_score (5/2) then 1 else 0)

/-- The six score contributions as the code actually gates them: the
fundamentals conditions additionally require the present value to be
nonzero (Python truthiness). -/
def score_contrib_sum (row : Row) : Int :=
  (if pyGT row.pl_pct 80 then -1 else 0)
  + (if pyGT row.weight_pct 7 then -1 else 0)
  + (if pyLT row.pl_pct (-20) then -1 else 0)
  + (if fGT row.pe 40 then -1 else 0)
  + (if fLT row.forward_pe 20 then 1 else 0)
  + (if fLT row.analyst_score (5/2) then 1 else 0)

/-- The insight conditions exactly as claim C4 words them: "pe present and
pe > 40", "analyst_score present and analyst_score < 2", presence alone
plus the comparison. -/
def insight_claim (row : Row) : String :=
  let insights :=
    (if pyGT row.pl_pct 80 then ["Large unrealized gain"] else [])
    ++ (if pyLT row.pl_pct (-20) then ["Large loss"] else [])
    ++ (if pyGT row.weight_pct 7 then ["High concentration"] else [])
    ++ (if pyGT row.pe 40 then ["High valuation"] else [])
    ++ (if pyLT row.analyst_score 2 then ["Analysts bullish"] else [])
  if insights.isEmpty then "Stable" else String.intercalate "; " insights

/-- The insight conditions as the code actually gates them: the `pe` and
`analyst_score` conditions additionally require the present value to be
nonzero (Python truthiness). -/
def insight_amended (row : Row) : String :=
  let insights :=
    (if pyGT row.pl_pct 80 then ["Large unrealized gain"] else [])
    ++ (if pyLT row.pl_pct (-20) then ["Large loss"] else [])
    ++ (if pyGT row.weight_pct 7 then ["High concentration"] else [])
    ++ (if fGT row.pe 40 then ["High valuation"] else [])
    ++ (if fLT row.analyst_score 2 then ["Analysts bullish"] else [])
  if insights.isEmpty then "Stable" else String.intercalate "; " insights

/-- Python `str.lower()` (ASCII case folding, character by character). -/
def pyLower (s : String) : String := String.mk (s.data.map Char.toLower)

/-- Python `str.upper()` (ASCII case folding, character by character). -/
def pyUpper (s : String) : String := String.mk (s.data.map Char.toUpper)

/-- One line of the input CSV: the required columns `asset_type`, `ticker`,
`shares`, `cost_basis`. -/
structure Holding where
  asset_type : String
  ticker : String
  shares : ℚ
  cost_basis : ℚ
deriving DecidableEq, Repr

/-- `fetch_cd_price` from `portfolio_tool.py` (lines 34-46): the hardcoded
dealer bid 99.632/100.0 for ticker "BANKOFNY" (upper-cased), cost_basis
otherwise. -/
def fetch_cd_price (row : Holding) : ℚ :=
  if pyUpper row.ticker = "BANKOFNY" then 99632 / 100000
  else row.cost_basis

/-- `fetch_stock_price` (lines 14-21): the quote service is abstracted as
`hist : String → Option ℚ`; an empty history raises (here: `Except.error`). -/
def fetch_stock_price (hist : String → Option ℚ) (ticker : String) : Except String ℚ :=
  match hist ticker with
  | none => Except.error ("No price data returned for STOCK " ++ ticker)
  | some p => Except.ok p

/-- `fetch_crypto_price` (lines 24-31): appends the "-USD" suffix before
querying the quote service. -/
def fetch_crypto_price (hist : String → Option ℚ) (symbol : String) : Except String ℚ :=
  match hist (symbol ++ "-USD") with
  | none => Except.error ("No price data returned for CRYPTO " ++ symbol)
  | some p => Except.ok p

/-- `fetch_price` from `portfolio_tool.py` (lines 53-70): routes on the
lower-cased asset type; an unknown asset type raises `ValueError`
(here: `Except.error`). -/
def fetch_price (hist : String → Option ℚ) (row : Holding) : Except String ℚ :=
  let atype := pyLower row.asset_type
  if atype = "stock" then fetch_stock_price hist row.ticker
  else if atype = "crypto" then fetch_crypto_price hist row.ticker
  else if atype = "cd" ∨ atype = "bond" then Except.ok (fetch_cd_price row)
  else if atype = "cash" then Except.ok 1
  else Except.error ("Unknown asset type: " ++ atype)

/-- The nine fundamentals fields returned by `fetch_fundamentals`
(lines 77-92), each independently optional. -/
structure Fundamentals where
  pe : Option ℚ
  forward_pe : Option ℚ
  ps : Option ℚ
  profit_margin : Option ℚ
  revenue_growth : Option ℚ
  eps_growth : Option ℚ
  beta : Option ℚ
  analyst_score : Option ℚ
  target_price : Option ℚ
deriving DecidableEq, Repr

/-- `safe_fundamentals` from `portfolio_tool.py` (lines 99-126): non-stock
rows get the all-`None` dict; for stock rows the fallible fetch (abstracted
as `fetchF`) is tried and any failure degrades to the all-`None` dict. -/
def safe_fundamentals (fetchF : String → Except String Fundamentals) (row : Holding) :
    Fundamentals :=
  if pyLower row.asset_type ≠ "stock" then
    ⟨none, none, none, none, none, none, none, none, none⟩
  else
    match fetchF row.ticker with
    | Except.ok f => f
    | Except.error _ => ⟨none, none, none, none, none, none, none, none, none⟩

/-- A Python/pandas float as the scoring pipeline can produce it: a finite
value, a signed infinity, or NaN. -/
inductive PyFloat where
  | fin (q : ℚ)
  | pinf
  | ninf
  | nan
deriving DecidableEq, Repr

/-- IEEE-754 (numpy/pandas) division of finite operands: a nonzero
numerator over a zero denominator gives a signed infinity, `0/0` gives
NaN, and no exception is ever raised. -/
def pyDiv (a b : ℚ) : PyFloat :=
  if b ≠ 0 then PyFloat.fin (a / b)
  else if 0 < a then PyFloat.pinf
  else if a < 0 then PyFloat.ninf
  else PyFloat.nan

/-- Multiplication by the positive literal 100 of line 207, lifted to the
float model (infinities and NaN are preserved). -/
def pyTimes100 : PyFloat → PyFloat
  | PyFloat.fin q => PyFloat.fin (q * 100)
  | PyFloat.pinf => PyFloat.pinf
  | PyFloat.ninf => PyFloat.ninf
  | PyFloat.nan => PyFloat.nan

/-- Lines 204-207 of `portfolio_tool.py` for one holding:
`market_value = shares * current_price`, `cost_value = shares * cost_basis`,
`pl_dollar = market_value - cost_value`,
`pl_pct = pl_dollar / cost_value * 100` under float semantics. -/
def pl_pct_metric (shares cost_basis current_price : ℚ) : PyFloat :=
  let market_value := shares * current_price
  let cost_value := shares * cost_basis
  let pl_dollar := market_value - cost_value
  pyTimes100 (pyDiv pl_dollar cost_value)

/-- Lines 209-213 of `portfolio_tool.py`: each holding's weight is its
market value divided by the summed market value, times 100. -/
def weight_pcts (mvs : List ℚ) : List ℚ :=
  mvs.map (fun mv => mv / mvs.sum * 100)

lemma sum_map_div_mul_hundred (l : List ℚ) (s : ℚ) :
    (l.map (fun mv => mv / s * 100)).sum = l.sum / s * 100 := by
  induction l with
  | nil => simp
  | cons a t ih =>
    simp only [List.map_cons, List.sum_cons, ih]
    ring

/-- Claim C1 fails as stated: with `forward_pe` present and equal to `0`
the claimed contribution sum is `+1` (since `0 < 20`), but `score_position`
returns `0` because Python truthiness of `0.0` skips the condition. -/
theorem C1_counterexample :
    score_position ⟨some 10, some 1, none, some 0, none⟩ = 0 ∧
    score_claim_sum ⟨some 10, some 1, none, some 0, none⟩ = 1 ∧
    score_position ⟨some 10, some 1, none, some 0, none⟩ ≠
      score_claim_sum ⟨some 10, some 1, none, some 0, none⟩ := by
  have h0 : score_position ⟨some 10, some 1, none, some 0, none⟩ = 0 := rfl
  have h1 : score_claim_sum ⟨some 10, some 1, none, some 0, none⟩ = 1 := rfl
  refine ⟨h0, h1, ?_⟩
  rw [h0, h1]
  decide

/-- Claim C1 (amended): the score equals the sum of six independent
contributions, where each fundamentals condition requires the field to be
present AND nonzero before its comparison decides; a present value of
exactly `0` is skipped like an absent field. -/
theorem score_position_eq_contrib_sum (row : Row) :
    score_position row = score_contrib_sum row := by
  simp only [score_position, score_contrib_sum]
  split_ifs <;> omega

/-- Claim C2: `decision_label` maps each score band to its fixed label and
always returns one of the five labels. -/
theorem decision_label_spec (s : Int) :
    (2 ≤ s → decision_label s = "Strong Buy") ∧
    (s = 1 → decision_label s = "Buy / Hold") ∧
    (s = 0 → decision_label s = "Review") ∧
    (s = -1 → decision_label s = "Trim") ∧
    (s ≤ -2 → decision_label s = "Sell") ∧
    decision_label s ∈ ["Strong Buy", "Buy / Hold", "Review", "Trim", "Sell"] := by
  unfold decision_label
  split_ifs with h1 h2 h3 h4 <;>
    refine ⟨?_, ?_, ?_, ?_, ?_, ?_⟩ <;> simp_all <;> omega

/-- Witness for claim C2 at the five concrete scores 2, 1, 0, -1, -2. -/
theorem decision_label_spec_witness :
    decision_label 2 = "Strong Buy" ∧ decision_label 1 = "Buy / Hold" ∧
    decision_label 0 = "Review" ∧ decision_label (-1) = "Trim" ∧
    decision_label (-2) = "Sell" :=
  ⟨(decision_label_spec 2).1 (by decide), (decision_label_spec 1).2.1 rfl,
    (decision_label_spec 0).2.2.1 rfl, (decision_label_spec (-1)).2.2.2.1 rfl,
    (decision_label_spec (-2)).2.2.2.2.1 (by decide)⟩

/-- Claim C4 fails as stated: with `analyst_score` present and equal to `0`
the claimed condition "present and < 2" matches, but `build_insight`
returns "Stable" because Python truthiness of `0.0` skips the condition. -/
theorem C4_counterexample :
    build_insight ⟨some 0, some 0, none, none, some 0⟩ = "Stable" ∧
    insight_claim ⟨some 0, some 0, none, none, some 0⟩ = "Analysts bullish" ∧
    build_insight ⟨some 0, some 0, none, none, some 0⟩ ≠
      insight_claim ⟨some 0, some 0, none, none, some 0⟩ := by
  have h0 : build_insight ⟨some 0, some 0, none, none, some 0⟩ = "Stable" := rfl
  have h1 : insight_claim ⟨some 0, some 0, none, none, some 0⟩ = "Analysts bullish" := rfl
  refine ⟨h0, h1, ?_⟩
  rw [h0, h1]
  decide

/-- Claim C4 (amended): `build_insight` joins the matched phrases with
"; " in the fixed order, where the `pe` and `analyst_score` conditions
require the field present AND nonzero before the comparison, and returns
"Stable" when no condition matches. -/
theorem build_insight_eq_amended (row : Row) :
    build_insight row = insight_amended row := by
  simp only [build_insight, insight_amended]
  split_ifs <;> simp_all

/-- Claim C5 fails as stated: on the example row the code's insight omits
"Analysts bullish", because `2.0 < 2` is false. -/
theorem C5_counterexample :
    build_insight ⟨some 10, some 8, some 45, some 15, some 2⟩
      = "High concentration; High valuation" ∧
    build_insight ⟨some 10, some 8, some 45, some 15, some 2⟩
      ≠ "High concentration; High valuation; Analysts bullish" := by
  have h0 : build_insight ⟨some 10, some 8, some 45, some 15, some 2⟩
      = "High concentration; High valuation" := rfl
  refine ⟨h0, ?_⟩
  rw [h0]
  decide

/-- Claim C5 (amended): for pl_pct=10, weight_pct=8, pe=45, forward_pe=15,
analyst_score=2.0 the engine produces score 0, decision "Review", and
insight "High concentration; High valuation" (the analyst condition of the
insight builder needs analyst_score < 2 and 2.0 is not below 2). -/
theorem C5_example :
    score_position ⟨some 10, some 8, some 45, some 15, some 2⟩ = 0 ∧
    decision_label (score_position ⟨some 10, some 8, some 45, some 15, some 2⟩)
      = "Review" ∧
    build_insight ⟨some 10, some 8, some 45, some 15, some 2⟩
      = "High concentration; High valuation" := by
  have h0 : score_position ⟨some 10, some 8, some 45, some 15, some 2⟩ = 0 := by
    norm_num [score_position, pyGT, pyLT, fGT, fLT]
  exact ⟨h0, by rw [h0]; rfl, rfl⟩

/-- Claim C3 fails on the code: for a holding with shares=1, cost_basis=0,
current_price=5 the cost value is 0 and the positive pl_dollar is divided
by it, so pl_pct comes out as +infinity — not as an absent/undefined value
and not as NaN. (The spec states the intended handled behavior; the code
does naive division, so this is a code bug.) -/
theorem pl_pct_zero_cost_is_inf :
    pl_pct_metric 1 0 5 = PyFloat.pinf ∧
    PyFloat.pinf ≠ PyFloat.nan ∧
    ∀ q : ℚ, PyFloat.pinf ≠ PyFloat.fin q := by
  refine ⟨?_, by decide, fun q h => by cases h⟩
  norm_num [pl_pct_metric, pyDiv, pyTimes100]

/-- Claim C6: `fetch_price` yields 1.0 for cash, the hardcoded 0.99632 for
a cd/bond with ticker "BANKOFNY", the cost basis for any other cd/bond,
and an error for any asset type outside stock/crypto/cd/bond/cash. -/
theorem fetch_price_spec (hist : String → Option ℚ) (row : Holding) :
    (pyLower row.asset_type = "cash" → fetch_price hist row = Except.ok 1) ∧
    ((pyLower row.asset_type = "cd" ∨ pyLower row.asset_type = "bond") →
      pyUpper row.ticker = "BANKOFNY" →
      fetch_price hist row = Except.ok (99632 / 100000)) ∧
    ((pyLower row.asset_type = "cd" ∨ pyLower row.asset_type = "bond") →
      pyUpper row.ticker ≠ "BANKOFNY" →
      fetch_price hist row = Except.ok row.cost_basis) ∧
    (pyLower row.asset_type ∉ (["stock", "crypto", "cd", "bond", "cash"] : List String) →
      ∃ msg, fetch_price hist row = Except.error msg) := by
  refine ⟨?_, ?_, ?_, ?_⟩
  · intro h
    simp [fetch_price, h]
  · rintro (h | h) ht <;> simp [fetch_price, fetch_cd_price, h, ht]
  · rintro (h | h) ht <;> simp [fetch_price, fetch_cd_price, h, ht]
  · intro h
    simp only [List.mem_cons, List.not_mem_nil, or_false, not_or] at h
    obtain ⟨h1, h2, h3, h4, h5⟩ := h
    refine ⟨"Unknown asset type: " ++ pyLower row.asset_type, ?_⟩
    simp [fetch_price, h1, h2, h3, h4, h5]

/-- Witness for claim C6: a cash row, the BANKOFNY cd, a plain bond and an
unknown asset type, with a quote oracle that never answers. -/
theorem fetch_price_spec_witness :
    fetch_price (fun _ => none) ⟨"cash", "X", 0, 0⟩ = Except.ok 1 ∧
    fetch_price (fun _ => none) ⟨"cd", "BANKOFNY", 1, 100⟩ = Except.ok (99632 / 100000) ∧
    fetch_price (fun _ => none) ⟨"bond", "T123", 1, 100⟩ = Except.ok 100 ∧
    ∃ msg, fetch_price (fun _ => none) ⟨"farm", "X", 0, 0⟩ = Except.error msg :=
  ⟨(fetch_price_spec (fun _ => none) ⟨"cash", "X", 0, 0⟩).1 rfl,
    (fetch_price_spec (fun _ => none) ⟨"cd", "BANKOFNY", 1, 100⟩).2.1 (Or.inl rfl) rfl,
    (fetch_price_spec (fun _ => none) ⟨"bond", "T123", 1, 100⟩).2.2.1 (Or.inr rfl)
      (by decide),
    (fetch_price_spec (fun _ => none) ⟨"farm", "X", 0, 0⟩).2.2.2 (by decide)⟩

/-- Claim C7: `safe_fundamentals` returns the record with all nine
fundamentals fields absent for every non-stock row, and for every stock row
whose fetch fails; being a total function, it never raises, so one
holding's failure cannot abort the batch. -/
theorem safe_fundamentals_spec (fetchF : String → Except String Fundamentals)
    (row : Holding) :
    (pyLower row.asset_type ≠ "stock" →
      safe_fundamentals fetchF row
        = ⟨none, none, none, none, none, none, none, none, none⟩) ∧
    (∀ e, fetchF row.ticker = Except.error e →
      safe_fundamentals fetchF row
        = ⟨none, none, none, none, none, none, none, none, none⟩) := by
  constructor
  · intro h
    simp [safe_fundamentals, h]
  · intro e he
    by_cases hs : pyLower row.asset_type = "stock"
    · simp [safe_fundamentals, hs, he]
    · simp [safe_fundamentals, hs]

/-- Witness for claim C7: a cd row and a stock row under an oracle that
always fails; both degrade to the all-absent record. -/
theorem safe_fundamentals_spec_witness :
    safe_fundamentals (fun _ => Except.error "boom") ⟨"cd", "BANKOFNY", 1, 100⟩
      = ⟨none, none, none, none, none, none, none, none, none⟩ ∧
    safe_fundamentals (fun _ => Except.error "boom") ⟨"stock", "AAPL", 1, 100⟩
      = ⟨none, none, none, none, none, none, none, none, none⟩ :=
  ⟨(safe_fundamentals_spec (fun _ => Except.error "boom") ⟨"cd", "BANKOFNY", 1, 100⟩).1
      (by decide),
    (safe_fundamentals_spec (fun _ => Except.error "boom") ⟨"stock", "AAPL", 1, 100⟩).2
      "boom" rfl⟩

/-- Claim C8: over a non-empty portfolio whose total market value is
positive, the weights market_value / total * 100 sum to exactly 100 (so in
particular within any rounding tolerance). -/
theorem weight_pcts_sum_100 (mvs : List ℚ) (_hne : mvs ≠ []) (hpos : 0 < mvs.sum) :
    (weight_pcts mvs).sum = 100 := by
  unfold weight_pcts
  rw [sum_map_div_mul_hundred, div_self (ne_of_gt hpos), one_mul]

/-- Witness for claim C8 on the concrete market values [1, 3]. -/
theorem weight_pcts_sum_100_witness : (weight_pcts [1, 3]).sum = 100 :=
  weight_pcts_sum_100 [1, 3] (by decide)
    (by norm_num [List.sum_cons, List.sum_nil])

/-- Claim C9: `score_position` reads nothing but its own row, so scoring is
deterministic (two evaluations agree), each holding keeps its score in any
surrounding list, and permuting the holding list permutes the score list
accordingly without changing any individual score. -/
theorem score_position_order_indep (l lp l1 l2 : List Row) (r : Row) :
    (l.Perm lp → (l.map score_position).Perm (lp.map score_position)) ∧
    ((l1 ++ r :: l2).map score_position
      = l1.map score_position ++ score_position r :: l2.map score_position) ∧
    score_position r = score_position r :=
  ⟨fun h => h.map score_position, by simp, rfl⟩

/-- Witness for claim C9: swapping a concrete two-element holding list
permutes the score list, and the scores evaluate as expected. -/
theorem score_position_order_indep_witness :
    (([⟨some 100, some 8, none, none, none⟩,
        ⟨some 0, some 0, none, none, none⟩] : List Row).map score_position).Perm
      (([⟨some 0, some 0, none, none, none⟩,
        ⟨some 100, some 8, none, none, none⟩] : List Row).map score_position) ∧
    ([⟨some 100, some 8, none, none, none⟩,
        ⟨some 0, some 0, none, none, none⟩] : List Row).map score_position = [-2, 0] :=
  ⟨(score_position_order_indep _ _ [] []
      ⟨some 0, some 0, none, none, none⟩).1 (List.Perm.swap _ _ _), rfl⟩

/-- Claim C10: a fundamentals field that is present with value exactly 0 is
skipped by `score_position` and `build_insight` exactly as if it were
absent; in particular forward_pe = 0 does not add +1 even though 0 < 20. -/
theorem zero_fundamentals_skipped (r : Row) :
    score_position {r with pe := some 0} = score_position {r with pe := none} ∧
    score_position {r with forward_pe := some 0}
      = score_position {r with forward_pe := none} ∧
    score_position {r with analyst_score := some 0}
      = score_position {r with analyst_score := none} ∧
    build_insight {r with pe := some 0} = build_insight {r with pe := none} ∧
    build_insight {r with analyst_score := some 0}
      = build_insight {r with analyst_score := none} := by
  refine ⟨?_, ?_, ?_, ?_, ?_⟩ <;>
    simp [score_position, build_insight, fGT, fLT]

/-- Witness for claim C10 (the theorem itself is hypothesis-free; this
instantiates it at a concrete row and also evaluates both sides). -/
theorem zero_fundamentals_skipped_witness :
    score_position ⟨some 10, some 1, none, some 0, none⟩
      = score_position ⟨some 10, some 1, none, none, none⟩ ∧
    score_position ⟨some 10, some 1, none, some 0, none⟩ = 0 :=
  ⟨(zero_fundamentals_skipped ⟨some 10, some 1, none, none, none⟩).2.1, rfl⟩
